import Mathlib

/-!
Verification of the proxy-side search-task orchestration engine
(internal/proxy/task_search.go): consistency-timestamp resolution,
advanced-search nq checking, requery decision, shard scatter/gather
error handling, TTL cutoff computation, result-size bookkeeping and
the iterator last-bound computation.

Machine integers are modelled as Nat (uint64 timestamps) and Int
(int64 counters); float32 scores are modelled as rationals, since the
code only selects among scores and never performs float arithmetic.
Fallible Go functions are modelled as Except-valued functions.
-/

namespace Milvus

/-- Logical (TSO) timestamp, a uint64 in the source. -/
abbrev Timestamp := Nat

/-- Classified Go error values, mirroring the merr error classes used by
task_search.go: parameter-invalid (InputInvalid), service-internal,
not-found, and plain wrapped errors. -/
inductive GoErr where
  | paramInvalid (msg : String)
  | internal (msg : String)
  | notFound (msg : String)
  | other (msg : String)
deriving Repr, DecidableEq

/-- schemapb.DataType, restricted to the constructors the claims exercise. -/
inductive DataType where
  | boolean
  | int64
  | float
  | varChar
  | json
  | floatVector
  | binaryVector
  | float16Vector
  | bfloat16Vector
  | sparseFloatVector
  | int8Vector
deriving Repr, DecidableEq

/-- typeutil.IsVectorType: true exactly on the vector data types. -/
def isVectorType : DataType → Bool
  | .floatVector => true
  | .binaryVector => true
  | .float16Vector => true
  | .bfloat16Vector => true
  | .sparseFloatVector => true
  | .int8Vector => true
  | _ => false

/-- One field of a collection schema (schemapb.FieldSchema, the parts used). -/
structure FieldSchema where
  name : String
  fieldID : Int
  dataType : DataType
deriving Repr, DecidableEq

/-- Collection metadata returned by the global meta cache
(collectionInfo: default consistency level, last schema-update timestamp,
TTL duration and the partition-key-isolation flag). The TTL duration is
modelled in whole milliseconds. -/
structure CollectionInfo where
  consistencyLevel : Int
  updateTimestamp : Timestamp
  collectionTTL : Int
  partitionKeyIsolation : Bool
deriving Repr, DecidableEq

/-- The caller-supplied consistency fields of milvuspb.SearchRequest.
consistencyLevel 0 is Strong. -/
structure SearchUserRequest where
  guaranteeTimestamp : Timestamp
  useDefaultConsistency : Bool
  consistencyLevel : Int
deriving Repr, DecidableEq

/-- One leg of an advanced (hybrid) search, milvuspb.SubSearchRequest:
nq is the number of query vectors carried by the leg. -/
structure SubSearchReq where
  nq : Int
  dsl : String
deriving Repr, DecidableEq

/-- commonpb.MsgBase, the parts used by searchShard. -/
structure MsgBase where
  msgID : Int
  timestamp : Timestamp
  targetID : Int
  sourceID : Int
deriving Repr, DecidableEq

/-- internalpb.SearchRequest, the outgoing internal request (the fields the
claims touch). -/
structure InternalSearchRequest where
  base : MsgBase
  collectionID : Int
  guaranteeTimestamp : Timestamp
  mvccTimestamp : Timestamp
  consistencyLevel : Int
  nq : Int
  topk : Int
  offset : Int
  isAdvanced : Bool
  isIterator : Bool
  collectionTtlTimestamps : Timestamp
deriving Repr, DecidableEq

/-- commonpb.ErrorCode, restricted to the codes searchShard inspects. -/
inductive ErrorCode where
  | success
  | unexpectedError
  | notShardLeader
deriving Repr, DecidableEq

/-- commonpb.Status. -/
structure Status where
  errorCode : ErrorCode
  reason : String
deriving Repr, DecidableEq

/-- internalpb.SearchResults: one shard leader's partial response. -/
structure InternalSearchResults where
  status : Status
  costAggregation : Int
deriving Repr, DecidableEq

/-- planpb.QueryInfo, the parts setQueryInfoIfMvEnable reads and writes. -/
structure QueryInfo where
  topk : Int
  metricType : String
  groupByFieldId : Int
  groupSize : Int
  hints : String
  materializedViewInvolved : Bool
  queryFieldId : Int
deriving Repr, DecidableEq

/-- milvuspb.SearchResultData, the parts used by fillResult and
getLastBound. Scores are float32 in the source, modelled as rationals. -/
structure SearchResultData where
  numQueries : Int
  topks : List Int
  scores : List ℚ
deriving Repr, DecidableEq

/-- milvuspb.SearchResults. -/
structure SearchResults where
  results : SearchResultData
  collectionName : String
deriving Repr, DecidableEq

/-- The searchTask state that the shard-call claims observe: the embedded
internal request, the concurrent result buffer (nil until PreExecute
creates it, hence Option), and the remaining task-owned flags. -/
structure TaskState where
  searchRequest : InternalSearchRequest
  resultBuf : Option (List InternalSearchResults)
  collectionName : String
  dbName : String
  needRequery : Bool
  resultSizeInsufficient : Bool
deriving Repr, DecidableEq

/-- querypb.SearchRequest: the per-shard wire request built by searchShard,
scoped to exactly one DML channel. -/
structure QuerySearchRequest where
  req : InternalSearchRequest
  dmlChannels : List String
  totalChannelNum : Int
deriving Repr, DecidableEq

/-- The error outcomes of one searchShard call: a transport-level error from
the RPC itself, the errInvalidShardLeaders retry signal, or the wrapped
non-success status error ("fail to search on QueryNode n"). -/
inductive ShardErr where
  | transport (msg : String)
  | invalidShardLeaders
  | wrapped (nodeID : Int) (status : Status)
deriving Repr, DecidableEq

/-- Ambient effects of one searchShard call: whether the collection's cached
shard routing was deprecated, and the cost reports sent to the load
balancer. -/
structure ShardCallEffects where
  deprecatedShardCache : Bool
  costReports : List (Int × Int)
deriving Repr, DecidableEq

/-! ### Consistency-timestamp resolution (PreExecute, lines 223-253)

parseGuaranteeTs and parseGuaranteeTsFromConsistency live outside the
given sources; they are abstracted as function parameters, so the
theorems below hold for every possible resolver. -/

/-- The read timestamp resolved from the requested (or collection-default)
consistency level, mirroring the branch structure of PreExecute:
default consistency uses the collection's level; otherwise the legacy
rule (level Strong = 0 with an explicit guarantee timestamp) uses
parseGuaranteeTs, and every other combination uses
parseGuaranteeTsFromConsistency on the user-requested level. -/
def resolvedReadTs (parseGTs : Timestamp → Timestamp → Timestamp)
    (parseGTsConsistency : Timestamp → Timestamp → Int → Timestamp)
    (req : SearchUserRequest) (beginTs : Timestamp) (info : CollectionInfo) : Timestamp :=
  if req.useDefaultConsistency then
    parseGTsConsistency req.guaranteeTimestamp beginTs info.consistencyLevel
  else if req.consistencyLevel = 0 ∧ 0 < req.guaranteeTimestamp then
    parseGTs req.guaranteeTimestamp beginTs
  else
    parseGTsConsistency req.guaranteeTimestamp beginTs req.consistencyLevel

/-- The resolved timestamp raised to the collection's last schema-update
timestamp ("use collection schema updated timestamp if it's greater"). -/
def finalGuaranteeTs (parseGTs : Timestamp → Timestamp → Timestamp)
    (parseGTsConsistency : Timestamp → Timestamp → Int → Timestamp)
    (req : SearchUserRequest) (beginTs : Timestamp) (info : CollectionInfo) : Timestamp :=
  let g := resolvedReadTs parseGTs parseGTsConsistency req beginTs info
  if info.updateTimestamp > g then info.updateTimestamp else g

/-- The guarantee timestamp actually carried by the outgoing request after
PreExecute: the iterator branch (line 249) overwrites it with the raw
caller-supplied guarantee timestamp when one is present. -/
def preExecuteGuaranteeTs (parseGTs : Timestamp → Timestamp → Timestamp)
    (parseGTsConsistency : Timestamp → Timestamp → Int → Timestamp)
    (req : SearchUserRequest) (beginTs : Timestamp) (info : CollectionInfo)
    (isIterator : Bool) : Timestamp :=
  let g := finalGuaranteeTs parseGTs parseGTsConsistency req beginTs info
  if isIterator = true ∧ 0 < req.guaranteeTimestamp then req.guaranteeTimestamp else g

/-! ### checkNq for advanced search (lines 289-326) -/

/-- Modelled from the spec: getNqFromSubSearch (internal/proxy, not under
src/) resolves the number of query vectors carried by one advanced-search
leg; per the spec each leg carries nq (number of query vectors), so the
resolver returns the leg's nq field. -/
def getNqFromSubSearch (r : SubSearchReq) : Except GoErr Int :=
  .ok r.nq

/-- Modelled from the spec: validateNQLimit (internal/proxy, not under src/)
enforces the documented nq limit, rejecting nq outside [1, 16384] with a
parameter-invalid error. -/
def validateNQLimit (nq : Int) : Except GoErr Unit :=
  if 16384 < nq ∨ nq ≤ 0 then
    .error (GoErr.paramInvalid "nq should be in range [1, 16384]")
  else
    .ok ()

/-- The sub-request loop of checkNq: resolve each leg's nq, store it back
into the leg, adopt it while the running nq is still 0, and reject a leg
whose nq differs from the established one. Returns the established nq and
the updated legs. -/
def checkNqSubReqs : Int → List SubSearchReq → Except GoErr (Int × List SubSearchReq)
  | nq, [] => .ok (nq, [])
  | nq, r :: rest =>
    match getNqFromSubSearch r with
    | .error e => .error e
    | .ok subNq =>
      if nq = 0 then
        match checkNqSubReqs subNq rest with
        | .error e => .error e
        | .ok (n, rs) => .ok (n, { r with nq := subNq } :: rs)
      else if subNq ≠ nq then
        .error (GoErr.paramInvalid "sub search request nq should be the same")
      else
        match checkNqSubReqs nq rest with
        | .error e => .error e
        | .ok (n, rs) => .ok (n, { r with nq := subNq } :: rs)

/-- The advanced-search arm of checkNq: run the per-leg loop starting from
the request's own nq, then validate the final nq against the limit. -/
def checkNqAdvanced (reqNq : Int) (subs : List SubSearchReq) :
    Except GoErr (Int × List SubSearchReq) :=
  match checkNqSubReqs reqNq subs with
  | .error e => .error e
  | .ok (nq, subs') =>
    match validateNQLimit nq with
    | .error e => .error e
    | .ok _ => .ok (nq, subs')

/-! ### The needRequery decision (initAdvancedSearchRequest line 382,
initSearchRequest lines 547-563) -/

/-- initAdvancedSearchRequest: needRequery is true iff the requested output
fields are non-empty or the rank-fusion function declares input fields. -/
def needRequeryAdvanced (outputFields : List String) (functionInputFieldNames : List String) :
    Bool :=
  decide (0 < outputFields.length) || decide (0 < functionInputFieldNames.length)

/-- initSearchRequest: needRequery is true iff some vector-typed schema field
is among the translated output fields; when it is, the first-pass plan's
output columns are only the fusion function's input fields (the vector
columns are omitted), otherwise the plan outputs the requested fields,
the fusion inputs and the primary key (as a set; modelled by dedup). -/
def initSearchRequestRequery (schemaFields : List FieldSchema)
    (translatedOutputFields : List String) (outputFieldsId : List Int)
    (functionInputFieldIDs : List Int) (pkFieldID : Int) : Bool × List Int :=
  let vectorOutputFields := schemaFields.filter
    (fun f => translatedOutputFields.contains f.name && isVectorType f.dataType)
  let needRequery := decide (0 < vectorOutputFields.length)
  (needRequery,
    if needRequery then functionInputFieldIDs
    else (outputFieldsId ++ functionInputFieldIDs ++ [pkFieldID]).dedup)

/-! ### fillResult (lines 493-504) -/

/-- fillResult: resultSizeInsufficient is raised when some per-query topk in
the reduced result is below topk - offset; the collection name is stamped
onto the result. Returns the flag and the updated result. -/
def fillResult (topk offset : Int) (result : SearchResults) (collectionName : String) :
    Bool × SearchResults :=
  let limit := topk - offset
  let resultSizeInsufficient := result.results.topks.any (fun k => decide (k < limit))
  (resultSizeInsufficient, { result with collectionName := collectionName })

/-! ### setQueryInfoIfMvEnable (lines 328-361)

The external helpers (partition-key field lookup, materialized-view
support check, expression parsing and the isolation validator) are
abstracted as parameters; P is the compiled plan type and E the parsed
expression type. -/

/-- setQueryInfoIfMvEnable: when materialized view is enabled, checks the
partition key field type, and under partition-key isolation parses the
plan's filter and validates single-partition-key equality, forcing the
query-info hint to "disable" on success. Note: when the collection-info
lookup fails the source returns the earlier err variable, which is nil at
that point, so the call degenerates to a no-op success. -/
def setQueryInfoIfMvEnable (P E : Type)
    (getPartitionKeyFieldSchema : Except GoErr FieldSchema)
    (isSupportMaterializedView : FieldSchema → Bool)
    (getCollectionInfo : Except GoErr CollectionInfo)
    (parseExprFromPlan : P → Except GoErr E)
    (validateIsolation : E → Except GoErr Unit)
    (enableMaterializedView : Bool)
    (queryInfo : QueryInfo) (plan : P) : Except GoErr QueryInfo :=
  if enableMaterializedView then
    match getPartitionKeyFieldSchema with
    | .error e => .error e
    | .ok pkField =>
      if isSupportMaterializedView pkField then
        match getCollectionInfo with
        | .error _ => .ok queryInfo
        | .ok collInfo =>
          if collInfo.partitionKeyIsolation then
            match parseExprFromPlan plan with
            | .error e => .error e
            | .ok expr =>
              match validateIsolation expr with
              | .error e => .error e
              | .ok _ =>
                .ok { queryInfo with hints := "disable", materializedViewInvolved := true }
          else
            .ok { queryInfo with materializedViewInvolved := true }
      else
        .error (GoErr.other "partition key field data type is not supported in materialized view")
  else
    .ok queryInfo

/-! ### Collection TTL cutoff (PreExecute, lines 264-272)

tsoutil timestamps pack the physical time in milliseconds into the upper
46 bits (logical part is 18 bits); ComposeTSByTime converts through
int64/uint64, modelled by reduction mod 2^64. Durations are modelled in
whole milliseconds. -/

/-- tsoutil.PhysicalTime: the physical milliseconds of a timestamp. -/
def tsPhysicalMs (ts : Timestamp) : Nat := ts / 2 ^ 18

/-- tsoutil.ComposeTSByTime with logical part 0. -/
def composeTSByTime (physicalMs : Int) : Timestamp :=
  ((physicalMs * 2 ^ 18) % (2 ^ 64 : Int)).toNat

/-- The TTL expiry cutoff: the task's begin time minus the TTL duration,
recomposed into a timestamp. -/
def ttlCutoffTs (baseTs : Timestamp) (ttlMs : Int) : Timestamp :=
  composeTSByTime ((tsPhysicalMs baseTs : Int) - ttlMs)

/-- The TTL fragment of PreExecute: with a nonzero TTL, compute the cutoff
from the begin timestamp, abort with a service-internal error when it
overflows past the begin timestamp, and otherwise record it on the
request. -/
def applyCollectionTtl (req : InternalSearchRequest) (baseTs : Timestamp)
    (info : CollectionInfo) : Except GoErr InternalSearchRequest :=
  if info.collectionTTL ≠ 0 then
    let cutoff := ttlCutoffTs baseTs info.collectionTTL
    if cutoff > baseTs then
      .error (GoErr.internal "ttl timestamp overflow")
    else
      .ok { req with collectionTtlTimestamps := cutoff }
  else
    .ok req

/-! ### getLastBound (lines 703-719) -/

/-- math.MaxFloat32, the largest finite float32, as a rational. -/
def maxFloat32 : ℚ := (2 ^ 24 - 1) * 2 ^ 104

/-- getLastBound: the last score of the reduced result when it is non-empty
and reports exactly one query; otherwise the incoming last bound when
supplied; otherwise the extreme representable score determined by whether
the metric is positively related to similarity. The metric.PositivelyRelated
helper is abstracted as a parameter. -/
def getLastBound (positivelyRelated : String → Bool) (result : SearchResults)
    (incomingLastBound : Option ℚ) (metricType : String) : ℚ :=
  let l := result.results.scores.length
  if 0 < l ∧ result.results.numQueries = 1 then
    result.results.scores.getLastD 0
  else
    match incomingLastBound with
    | some b => b
    | none => if positivelyRelated metricType then maxFloat32 else -maxFloat32

/-! ### searchShard (lines 820-860) -/

/-- The per-shard wire request: a fresh copy of the task's search request
(typeutil.Clone) with the destination node stamped into its base, scoped
to exactly one channel. -/
def buildShardRequest (t : TaskState) (nodeID : Int) (channel : String) : QuerySearchRequest :=
  { req := { t.searchRequest with base := { t.searchRequest.base with targetID := nodeID } }
    dmlChannels := [channel]
    totalChannelNum := 1 }

/-- searchShard: call the shard leader with the cloned request; a transport
error deprecates the shard cache and aborts with that error; a
NotShardLeader status deprecates the cache and signals
errInvalidShardLeaders; any other non-success status aborts with the
wrapped error (without touching the cache); success inserts the partial
result into the result buffer (when one exists) and reports cost metrics
to the load balancer. -/
def searchShard (t : TaskState) (nodeID : Int)
    (qn : QuerySearchRequest → Except String InternalSearchResults) (channel : String) :
    TaskState × ShardCallEffects × Option ShardErr :=
  match qn (buildShardRequest t nodeID channel) with
  | .error e => (t, ⟨true, []⟩, some (ShardErr.transport e))
  | .ok result =>
    if result.status.errorCode = ErrorCode.notShardLeader then
      (t, ⟨true, []⟩, some ShardErr.invalidShardLeaders)
    else if result.status.errorCode ≠ ErrorCode.success then
      (t, ⟨false, []⟩, some (ShardErr.wrapped nodeID result.status))
    else
      ({ t with resultBuf := t.resultBuf.map (fun buf => result :: buf) },
        ⟨false, [(nodeID, result.costAggregation)]⟩, none)

/-! ## Sample data used by witnesses and counterexamples -/

/-- A continuation-page iterator request: explicit guarantee timestamp 5,
user-chosen (non-default) consistency level 4 (Customized). -/
def iterReq : SearchUserRequest :=
  { guaranteeTimestamp := 5, useDefaultConsistency := false, consistencyLevel := 4 }

/-- A first-page request relying on the collection default consistency. -/
def plainReq : SearchUserRequest :=
  { guaranteeTimestamp := 0, useDefaultConsistency := true, consistencyLevel := 0 }

/-- Collection metadata whose schema was updated at timestamp 100. -/
def staleInfo : CollectionInfo :=
  { consistencyLevel := 2, updateTimestamp := 100, collectionTTL := 0,
    partitionKeyIsolation := false }

/-! ## C1 -/

/-- C1 counterexample: for an iterator continuation page (isIterator true,
caller-supplied guarantee timestamp 5) the outgoing guarantee timestamp is
the raw caller value 5, which is below max of the resolved read timestamp
and the collection's schema-update timestamp 100 — so the claimed lower
bound fails on the iterator path. -/
theorem guaranteeTs_counterexample :
    preExecuteGuaranteeTs (fun g _ => g) (fun g _ _ => g) iterReq 50 staleInfo true = 5 ∧
    ¬ (max (resolvedReadTs (fun g _ => g) (fun g _ _ => g) iterReq 50 staleInfo)
        staleInfo.updateTimestamp ≤ 5) := by
  decide

/-- C1 amended: for every task that is not an iterator continuation (not an
iterator, or no caller-supplied guarantee timestamp), the outgoing
guarantee timestamp is at least the maximum of the timestamp resolved from
the requested (or collection-default) consistency level and the
collection's last schema-update timestamp; an iterator continuation page
instead carries exactly the caller-supplied timestamp. -/
theorem guaranteeTs_amended (parseGTs : Timestamp → Timestamp → Timestamp)
    (parseGTsConsistency : Timestamp → Timestamp → Int → Timestamp)
    (req : SearchUserRequest) (beginTs : Timestamp) (info : CollectionInfo)
    (isIterator : Bool) :
    (¬ (isIterator = true ∧ 0 < req.guaranteeTimestamp) →
      max (resolvedReadTs parseGTs parseGTsConsistency req beginTs info)
          info.updateTimestamp ≤
        preExecuteGuaranteeTs parseGTs parseGTsConsistency req beginTs info isIterator) ∧
    (isIterator = true → 0 < req.guaranteeTimestamp →
      preExecuteGuaranteeTs parseGTs parseGTsConsistency req beginTs info isIterator =
        req.guaranteeTimestamp) := by
  constructor
  · intro h
    simp only [preExecuteGuaranteeTs, finalGuaranteeTs]
    rw [if_neg h]
    by_cases hc : info.updateTimestamp > resolvedReadTs parseGTs parseGTsConsistency req beginTs info
    · rw [if_pos hc]
      exact max_le (le_of_lt hc) le_rfl
    · rw [if_neg hc]
      exact max_le le_rfl (le_of_not_lt hc)
  · intro h1 h2
    simp only [preExecuteGuaranteeTs]
    rw [if_pos ⟨h1, h2⟩]

/-- C1 amended witness: a concrete non-iterator default-consistency request
against staleInfo satisfies the lower bound. -/
theorem guaranteeTs_amended_witness :
    max (resolvedReadTs (fun g _ => g) (fun _ b _ => b) plainReq 40 staleInfo)
        staleInfo.updateTimestamp ≤
      preExecuteGuaranteeTs (fun g _ => g) (fun _ b _ => b) plainReq 40 staleInfo false :=
  (guaranteeTs_amended (fun g _ => g) (fun _ b _ => b) plainReq 40 staleInfo false).1
    (by decide)

/-! ## C5 and C10: getLastBound -/

/-- A reduced iterator page with zero rows. -/
def emptyPage : SearchResults :=
  { results := { numQueries := 1, topks := [], scores := [] }, collectionName := "" }

/-- A reduced result reporting two query vectors. -/
def multiQueryPage : SearchResults :=
  { results := { numQueries := 2, topks := [1, 1], scores := [(3 : ℚ), 5] },
    collectionName := "" }

/-- C5: for a result page with zero returned rows and no incoming last bound,
getLastBound emits the maximum representable float32 score when the metric
is positively related to similarity, and its negation (the minimum
representable score) otherwise. -/
theorem getLastBound_empty_extreme (positivelyRelated : String → Bool)
    (result : SearchResults) (metricType : String)
    (h : result.results.scores = []) :
    getLastBound positivelyRelated result none metricType =
      if positivelyRelated metricType then maxFloat32 else -maxFloat32 := by
  simp only [getLastBound]
  rw [if_neg (by rw [h]; simp)]

/-- C5 witness: the zero-row page with a positively related metric yields the
extreme bound. -/
theorem getLastBound_empty_extreme_witness :
    getLastBound (fun m => m == "IP") emptyPage none "IP" =
      if (fun m => m == "IP") "IP" then maxFloat32 else -maxFloat32 :=
  getLastBound_empty_extreme (fun m => m == "IP") emptyPage "IP" rfl

/-- C10: getLastBound returns the last score exactly when the result is
non-empty and reports one query vector; a non-empty result with a
different NumQueries ignores the scores and falls back to the incoming
bound when supplied, else to the extreme representable value for the
metric's correlation direction. -/
theorem getLastBound_single_query (positivelyRelated : String → Bool)
    (result : SearchResults) (incoming : Option ℚ) (metricType : String) :
    (result.results.scores ≠ [] → result.results.numQueries = 1 →
      getLastBound positivelyRelated result incoming metricType =
        result.results.scores.getLastD 0) ∧
    (result.results.scores ≠ [] → result.results.numQueries ≠ 1 →
      getLastBound positivelyRelated result incoming metricType =
        incoming.getD (if positivelyRelated metricType then maxFloat32 else -maxFloat32)) := by
  constructor
  · intro hne hq
    simp only [getLastBound]
    rw [if_pos ⟨List.length_pos.mpr hne, hq⟩]
  · intro hne hq
    simp only [getLastBound]
    rw [if_neg (fun hc => hq hc.2)]
    cases incoming <;> rfl

/-- C10 witness: a two-query page with an incoming bound returns the incoming
bound, not a score. -/
theorem getLastBound_single_query_witness :
    getLastBound (fun _ => true) multiQueryPage (some 7) "IP" =
      (some (7 : ℚ)).getD (if (fun (_ : String) => true) "IP" then maxFloat32 else -maxFloat32) :=
  (getLastBound_single_query (fun _ => true) multiQueryPage (some 7) "IP").2
    (by decide) (by decide)

/-! ## C6: fillResult -/

/-- The single-shard exact-match scenario: one query vector, the filter
matched 3 rows, so the reduced result carries a per-query topk of 3. -/
def scenarioResult : SearchResults :=
  { results := { numQueries := 1, topks := [3], scores := [9, 8, 7] },
    collectionName := "t" }

/-- C6: after reduction, resultSizeInsufficient is true iff some per-query
returned topk is smaller than topk - offset; in particular the reduced
single-vector result with topk 10, offset 0 and 3 matched rows reports
resultSizeInsufficient with a per-query row count of 3. -/
theorem fillResult_insufficient_iff :
    (∀ (topk offset : Int) (result : SearchResults) (name : String),
      ((fillResult topk offset result name).1 = true ↔
        ∃ k ∈ result.results.topks, k < topk - offset)) ∧
    ((fillResult 10 0 scenarioResult "t").1 = true ∧
      scenarioResult.results.topks = [3]) := by
  constructor
  · intro topk offset result name
    simp [fillResult, List.any_eq_true]
  · exact ⟨rfl, rfl⟩

/-! ## C2: checkNq for advanced search -/

/-- Once the running nq is nonzero the loop never changes it. -/
theorem checkNqSubReqs_acc (subs : List SubSearchReq) :
    ∀ (nq n : Int) (subs' : List SubSearchReq),
      checkNqSubReqs nq subs = .ok (n, subs') → nq ≠ 0 → n = nq := by
  induction subs with
  | nil =>
    intro nq n subs' h _
    simp only [checkNqSubReqs, Except.ok.injEq, Prod.mk.injEq] at h
    exact h.1.symm
  | cons r rest ih =>
    intro nq n subs' h hnz
    simp only [checkNqSubReqs, getNqFromSubSearch] at h
    rw [if_neg hnz] at h
    by_cases hr : r.nq ≠ nq
    · rw [if_pos hr] at h
      simp at h
    · rw [if_neg hr] at h
      cases hrec : checkNqSubReqs nq rest with
      | error e =>
        rw [hrec] at h
        simp at h
      | ok p =>
        obtain ⟨m, rs⟩ := p
        rw [hrec] at h
        simp only [Except.ok.injEq, Prod.mk.injEq] at h
        have hm : m = nq := ih nq m rs hrec hnz
        omega

/-- Every leg emitted by the loop with a nonzero nq carries the final nq. -/
theorem checkNqSubReqs_mem (subs : List SubSearchReq) :
    ∀ (nq n : Int) (subs' : List SubSearchReq),
      checkNqSubReqs nq subs = .ok (n, subs') →
      ∀ r ∈ subs', r.nq ≠ 0 → r.nq = n := by
  induction subs with
  | nil =>
    intro nq n subs' h r hr _
    simp only [checkNqSubReqs, Except.ok.injEq, Prod.mk.injEq] at h
    rw [← h.2] at hr
    simp at hr
  | cons s rest ih =>
    intro nq n subs' h r hr hrz
    simp only [checkNqSubReqs, getNqFromSubSearch] at h
    by_cases hnz : nq = 0
    · rw [if_pos hnz] at h
      cases hrec : checkNqSubReqs s.nq rest with
      | error e =>
        rw [hrec] at h
        simp at h
      | ok p =>
        obtain ⟨m, rs⟩ := p
        rw [hrec] at h
        simp only [Except.ok.injEq, Prod.mk.injEq] at h
        obtain ⟨hm, hs⟩ := h
        rw [← hs] at hr
        rcases List.mem_cons.mp hr with hhead | htail
        · subst hhead
          have hsz : s.nq ≠ 0 := hrz
          have hacc : m = s.nq := checkNqSubReqs_acc rest s.nq m rs hrec hsz
          show s.nq = n
          omega
        · exact hm ▸ ih s.nq m rs hrec r htail hrz
    · rw [if_neg hnz] at h
      by_cases hne : s.nq ≠ nq
      · rw [if_pos hne] at h
        simp at h
      · rw [if_neg hne] at h
        push_neg at hne
        cases hrec : checkNqSubReqs nq rest with
        | error e =>
          rw [hrec] at h
          simp at h
        | ok p =>
          obtain ⟨m, rs⟩ := p
          rw [hrec] at h
          simp only [Except.ok.injEq, Prod.mk.injEq] at h
          obtain ⟨hm, hs⟩ := h
          have hacc : m = nq := checkNqSubReqs_acc rest nq m rs hrec hnz
          rw [← hs] at hr
          rcases List.mem_cons.mp hr with hhead | htail
          · subst hhead
            show s.nq = n
            omega
          · exact hm ▸ ih nq m rs hrec r htail hrz

/-- Every error produced by the loop is parameter-invalid. -/
theorem checkNqSubReqs_error (subs : List SubSearchReq) :
    ∀ (nq : Int) (e : GoErr),
      checkNqSubReqs nq subs = .error e → ∃ m, e = GoErr.paramInvalid m := by
  induction subs with
  | nil =>
    intro nq e h
    simp [checkNqSubReqs] at h
  | cons s rest ih =>
    intro nq e h
    simp only [checkNqSubReqs, getNqFromSubSearch] at h
    by_cases hnz : nq = 0
    · rw [if_pos hnz] at h
      cases hrec : checkNqSubReqs s.nq rest with
      | error e2 =>
        rw [hrec] at h
        simp only [Except.error.injEq] at h
        exact h ▸ ih s.nq e2 hrec
      | ok p =>
        obtain ⟨m, rs⟩ := p
        rw [hrec] at h
        simp at h
    · rw [if_neg hnz] at h
      by_cases hne : s.nq ≠ nq
      · rw [if_pos hne] at h
        simp only [Except.error.injEq] at h
        exact ⟨"sub search request nq should be the same", h.symm⟩
      · rw [if_neg hne] at h
        cases hrec : checkNqSubReqs nq rest with
        | error e2 =>
          rw [hrec] at h
          simp only [Except.error.injEq] at h
          exact h ▸ ih nq e2 hrec
        | ok p =>
          obtain ⟨m, rs⟩ := p
          rw [hrec] at h
          simp at h

/-- C2 counterexample: an advanced request whose first leg resolves to nq 0
passes checkNq (the running-nq-zero branch skips the equality check), so
the task proceeds with legs carrying differing nq values 0 and 3 — the
claimed all-legs-equal-or-InputInvalid dichotomy fails. -/
theorem checkNq_counterexample :
    checkNqAdvanced 0 [{ nq := 0, dsl := "a > 1" }, { nq := 3, dsl := "a > 1" }] =
      .ok (3, [{ nq := 0, dsl := "a > 1" }, { nq := 3, dsl := "a > 1" }]) ∧
    ({ nq := 0, dsl := "a > 1" } : SubSearchReq).nq ≠
      ({ nq := 3, dsl := "a > 1" } : SubSearchReq).nq :=
  ⟨rfl, by decide⟩

/-- C2 amended: checkNq either fails with a parameter-invalid (InputInvalid)
error, or establishes a single nq shared by every sub-request leg whose
resolved nq is nonzero (legs resolving to nq 0 may precede the first
nonzero leg and bypass the consistency check). -/
theorem checkNq_amended (reqNq : Int) (subs : List SubSearchReq) :
    (∀ (n : Int) (subs' : List SubSearchReq),
      checkNqAdvanced reqNq subs = .ok (n, subs') →
      ∀ r ∈ subs', r.nq ≠ 0 → r.nq = n) ∧
    (∀ e, checkNqAdvanced reqNq subs = .error e → ∃ m, e = GoErr.paramInvalid m) := by
  constructor
  · intro n subs' h r hr hrz
    unfold checkNqAdvanced at h
    split at h
    next e heq =>
      simp at h
    next m rs heq =>
      split at h
      next e2 hv =>
        simp at h
      next u hv =>
        simp only [Except.ok.injEq, Prod.mk.injEq] at h
        obtain ⟨hm, hs⟩ := h
        exact hm ▸ checkNqSubReqs_mem subs reqNq m rs heq r (hs ▸ hr) hrz
  · intro e h
    unfold checkNqAdvanced at h
    split at h
    next e2 heq =>
      simp only [Except.error.injEq] at h
      exact h ▸ checkNqSubReqs_error subs reqNq e2 heq
    next m rs heq =>
      split at h
      next e2 hv =>
        simp only [Except.error.injEq] at h
        subst h
        unfold validateNQLimit at hv
        by_cases hc : 16384 < m ∨ m ≤ 0
        · rw [if_pos hc] at hv
          simp only [Except.error.injEq] at hv
          exact ⟨"nq should be in range [1, 16384]", hv.symm⟩
        · rw [if_neg hc] at hv
          simp at hv
      next u hv =>
        simp at h

/-- C2 amended witness: a two-leg request with matching nq 3 passes the
check, and every emitted nonzero leg carries nq 3. -/
theorem checkNq_amended_witness : ({ nq := 3, dsl := "b" } : SubSearchReq).nq = 3 :=
  (checkNq_amended 0 [{ nq := 3, dsl := "b" }, { nq := 3, dsl := "b" }]).1
    3 [{ nq := 3, dsl := "b" }, { nq := 3, dsl := "b" }] rfl
    { nq := 3, dsl := "b" } (List.mem_cons_self _ _) (by decide)

/-! ## C3: the needRequery decision -/

/-- A non-empty filtered sublist is exactly a witness satisfying the filter. -/
theorem length_pos_filter_iff {α : Type} (p : α → Bool) (l : List α) :
    0 < (l.filter p).length ↔ ∃ a ∈ l, p a = true := by
  induction l with
  | nil => simp
  | cons a l ih =>
    by_cases h : p a = true
    · simp only [List.filter_cons, if_pos h, List.length_cons]
      constructor
      · intro _
        exact ⟨a, List.mem_cons_self a l, h⟩
      · intro _
        exact Nat.succ_pos _
    · simp only [List.filter_cons, if_neg h, List.mem_cons]
      rw [ih]
      constructor
      · rintro ⟨x, hx, hpx⟩
        exact ⟨x, Or.inr hx, hpx⟩
      · rintro ⟨x, hx | hx, hpx⟩
        · exact absurd (hx ▸ hpx) h
        · exact ⟨x, hx, hpx⟩

/-- Schema of the counterexample collection: an Int64 primary key, one float
vector and one scalar VarChar field. -/
def exSchemaFields : List FieldSchema :=
  [ { name := "pk", fieldID := 100, dataType := DataType.int64 },
    { name := "vec", fieldID := 101, dataType := DataType.floatVector },
    { name := "price", fieldID := 102, dataType := DataType.varChar } ]

/-- C3 counterexample: a single-vector search whose requested output fields
are non-empty but contain only the scalar field "price" gets
needRequery = false from initSearchRequest, refuting the claim that
non-empty output fields always set needRequery. -/
theorem needRequery_counterexample :
    (initSearchRequestRequery exSchemaFields ["price"] [102] [] 100).1 = false ∧
    (["price"] : List String) ≠ [] :=
  ⟨rfl, by decide⟩

/-- C3 amended: in advanced request composition, needRequery is true iff the
requested output fields are non-empty or the rank-fusion function declares
input fields; in single-vector composition, needRequery is true iff a
vector-typed field is among the requested output fields (so a vector
output forces it true, but scalar-only output fields do not set it). -/
theorem needRequery_amended (outputFields functionInputFieldNames : List String)
    (schemaFields : List FieldSchema) (translated : List String)
    (outputFieldsId functionInputFieldIDs : List Int) (pkFieldID : Int) :
    (needRequeryAdvanced outputFields functionInputFieldNames = true ↔
      outputFields ≠ [] ∨ functionInputFieldNames ≠ []) ∧
    ((initSearchRequestRequery schemaFields translated outputFieldsId
        functionInputFieldIDs pkFieldID).1 = true ↔
      ∃ f ∈ schemaFields, translated.contains f.name = true ∧
        isVectorType f.dataType = true) := by
  constructor
  · simp [needRequeryAdvanced, List.length_pos]
  · simp only [initSearchRequestRequery, decide_eq_true_eq]
    rw [length_pos_filter_iff]
    simp [Bool.and_eq_true]

/-! ## C7: setQueryInfoIfMvEnable -/

/-- C7: with materialized view enabled, a supported partition-key field type,
a successful collection-info lookup reporting partition-key isolation, and
a parseable plan expression, setQueryInfoIfMvEnable fails with the
validator's error exactly on plans whose expression fails the
single-partition-key-equality validation, and on success returns the query
info with the hint forced to "disable". -/
theorem setQueryInfoIfMvEnable_isolation (P E : Type)
    (getPKField : Except GoErr FieldSchema) (isSupport : FieldSchema → Bool)
    (getCollInfo : Except GoErr CollectionInfo)
    (parseExpr : P → Except GoErr E) (validateIso : E → Except GoErr Unit)
    (qi : QueryInfo) (plan : P) (pkField : FieldSchema) (info : CollectionInfo) (expr : E)
    (h1 : getPKField = .ok pkField) (h2 : isSupport pkField = true)
    (h3 : getCollInfo = .ok info) (h4 : info.partitionKeyIsolation = true)
    (h5 : parseExpr plan = .ok expr) :
    (∀ e, validateIso expr = .error e →
      setQueryInfoIfMvEnable P E getPKField isSupport getCollInfo parseExpr validateIso
        true qi plan = .error e) ∧
    (validateIso expr = .ok () →
      setQueryInfoIfMvEnable P E getPKField isSupport getCollInfo parseExpr validateIso
        true qi plan =
        .ok { qi with hints := "disable", materializedViewInvolved := true }) := by
  constructor
  · intro e he
    simp [setQueryInfoIfMvEnable, h1, h2, h3, h4, h5, he]
  · intro hv
    simp [setQueryInfoIfMvEnable, h1, h2, h3, h4, h5, hv]

/-- The query info of the materialized-view witness leg. -/
def mvQueryInfo : QueryInfo :=
  { topk := 10, metricType := "L2", groupByFieldId := -1, groupSize := 1,
    hints := "", materializedViewInvolved := false, queryFieldId := 101 }

/-- The partition-key field of the materialized-view witness collection. -/
def mvPkField : FieldSchema :=
  { name := "tenant", fieldID := 102, dataType := DataType.varChar }

/-- Collection metadata with partition-key isolation enabled. -/
def mvCollInfo : CollectionInfo :=
  { consistencyLevel := 2, updateTimestamp := 0, collectionTTL := 0,
    partitionKeyIsolation := true }

/-- C7 witness: a passing isolation validation forces the "disable" hint. -/
theorem setQueryInfoIfMvEnable_isolation_witness :
    setQueryInfoIfMvEnable Unit Unit (.ok mvPkField) (fun _ => true) (.ok mvCollInfo)
      (fun _ => .ok ()) (fun _ => .ok ()) true mvQueryInfo () =
      .ok { mvQueryInfo with hints := "disable", materializedViewInvolved := true } :=
  (setQueryInfoIfMvEnable_isolation Unit Unit (.ok mvPkField) (fun _ => true)
      (.ok mvCollInfo) (fun _ => .ok ()) (fun _ => .ok ()) mvQueryInfo ()
      mvPkField mvCollInfo () rfl rfl rfl rfl rfl).2 rfl

/-! ## C8: the collection TTL cutoff -/

/-- C8: with a nonzero collection TTL, PreExecute's TTL fragment fails with a
service-internal error exactly when the cutoff computed from the begin
timestamp exceeds the begin timestamp, and otherwise records the cutoff on
the outgoing request. -/
theorem collectionTtl_check (req : InternalSearchRequest) (baseTs : Timestamp)
    (info : CollectionInfo) (httl : info.collectionTTL ≠ 0) :
    ((∃ m, applyCollectionTtl req baseTs info = .error (GoErr.internal m)) ↔
      baseTs < ttlCutoffTs baseTs info.collectionTTL) ∧
    (ttlCutoffTs baseTs info.collectionTTL ≤ baseTs →
      applyCollectionTtl req baseTs info =
        .ok { req with collectionTtlTimestamps := ttlCutoffTs baseTs info.collectionTTL }) := by
  simp only [applyCollectionTtl]
  rw [if_pos httl]
  by_cases hc : ttlCutoffTs baseTs info.collectionTTL > baseTs
  · rw [if_pos hc]
    constructor
    · constructor
      · intro _
        exact hc
      · intro _
        exact ⟨"ttl timestamp overflow", rfl⟩
    · intro hle
      exact absurd hc (not_lt.mpr hle)
  · rw [if_neg hc]
    constructor
    · constructor
      · rintro ⟨m, hm⟩
        simp at hm
      · intro hlt
        exact absurd hlt hc
    · intro _
      rfl

/-- The internal request used by the shard and TTL witnesses. -/
def sampleReq : InternalSearchRequest :=
  { base := { msgID := 1, timestamp := 1310720, targetID := 0, sourceID := 1 },
    collectionID := 7, guaranteeTimestamp := 0, mvccTimestamp := 0,
    consistencyLevel := 0, nq := 1, topk := 10, offset := 0,
    isAdvanced := false, isIterator := false, collectionTtlTimestamps := 0 }

/-- Collection metadata with a 2 ms TTL. -/
def ttlInfo : CollectionInfo :=
  { consistencyLevel := 0, updateTimestamp := 0, collectionTTL := 2,
    partitionKeyIsolation := false }

/-- C8 witness: begin timestamp 1310720 (5 ms physical) with a 2 ms TTL gives
a cutoff of 786432, which is recorded without overflow. -/
theorem collectionTtl_check_witness :
    applyCollectionTtl sampleReq 1310720 ttlInfo =
      .ok { sampleReq with
              collectionTtlTimestamps := ttlCutoffTs 1310720 ttlInfo.collectionTTL } :=
  (collectionTtl_check sampleReq 1310720 ttlInfo (by decide)).2 (by decide)

/-! ## C4 and C9: searchShard -/

/-- The task state used by the shard-call witnesses: a created (non-nil)
result buffer and the sample request. -/
def sampleTask : TaskState :=
  { searchRequest := sampleReq, resultBuf := some [], collectionName := "c1",
    dbName := "default", needRequery := false, resultSizeInsufficient := false }

/-- A shard response carrying a non-success, non-NotShardLeader status. -/
def badStatusResult : InternalSearchResults :=
  { status := { errorCode := ErrorCode.unexpectedError, reason := "segment not loaded" },
    costAggregation := 0 }

/-- A successful shard response. -/
def okResult : InternalSearchResults :=
  { status := { errorCode := ErrorCode.success, reason := "" }, costAggregation := 2 }

/-- C4 counterexample: a shard call whose RPC succeeds but returns a
non-success, non-NotShardLeader status aborts with the wrapped error yet
does NOT deprecate the cached shard routing, refuting the claim that every
non-leadership error invalidates the routing cache. -/
theorem searchShard_counterexample :
    (searchShard sampleTask 7 (fun _ => .ok badStatusResult) "ch").2.2 =
      some (ShardErr.wrapped 7 badStatusResult.status) ∧
    (searchShard sampleTask 7 (fun _ => .ok badStatusResult) "ch").2.1.deprecatedShardCache =
      false :=
  ⟨rfl, rfl⟩

/-- C4 amended: a transport-level RPC error deprecates the shard cache and
aborts with that error; a NotShardLeader status deprecates the cache and
signals errInvalidShardLeaders to the balancer; any other non-success
status aborts with the wrapped error without deprecating the cache; a
successful result is inserted into the task's result buffer and its cost
is reported to the load balancer. -/
theorem searchShard_amended (t : TaskState) (nodeID : Int)
    (qn : QuerySearchRequest → Except String InternalSearchResults) (channel : String) :
    (∀ e, qn (buildShardRequest t nodeID channel) = .error e →
      searchShard t nodeID qn channel = (t, ⟨true, []⟩, some (ShardErr.transport e))) ∧
    (∀ res, qn (buildShardRequest t nodeID channel) = .ok res →
      res.status.errorCode = ErrorCode.notShardLeader →
      searchShard t nodeID qn channel = (t, ⟨true, []⟩, some ShardErr.invalidShardLeaders)) ∧
    (∀ res, qn (buildShardRequest t nodeID channel) = .ok res →
      res.status.errorCode ≠ ErrorCode.notShardLeader →
      res.status.errorCode ≠ ErrorCode.success →
      searchShard t nodeID qn channel =
        (t, ⟨false, []⟩, some (ShardErr.wrapped nodeID res.status))) ∧
    (∀ res, qn (buildShardRequest t nodeID channel) = .ok res →
      res.status.errorCode = ErrorCode.success →
      searchShard t nodeID qn channel =
        ({ t with resultBuf := t.resultBuf.map (fun buf => res :: buf) },
          ⟨false, [(nodeID, res.costAggregation)]⟩, none)) := by
  refine ⟨?_, ?_, ?_, ?_⟩
  · intro e he
    simp [searchShard, he]
  · intro res hres hcode
    simp [searchShard, hres, hcode]
  · intro res hres h1 h2
    simp [searchShard, hres, h1, h2]
  · intro res hres hcode
    simp [searchShard, hres, hcode]

/-- C4 amended witness: a transport failure deprecates the cache and aborts
with the transport error. -/
theorem searchShard_amended_witness :
    searchShard sampleTask 3 (fun _ => .error "connection refused") "ch" =
      (sampleTask, ⟨true, []⟩, some (ShardErr.transport "connection refused")) :=
  (searchShard_amended sampleTask 3 (fun _ => .error "connection refused") "ch").1
    "connection refused" rfl

/-- C9: the per-shard wire request is a fresh copy of the task's request with
only the target node stamped in; searchShard never changes the task's
searchRequest or any other task field, a successful call's only task-state
write is the insertion into the result buffer, and a failed call leaves
the task state entirely unchanged. -/
theorem searchShard_frame (t : TaskState) (nodeID : Int)
    (qn : QuerySearchRequest → Except String InternalSearchResults) (channel : String) :
    (buildShardRequest t nodeID channel).req =
      { t.searchRequest with base := { t.searchRequest.base with targetID := nodeID } } ∧
    (searchShard t nodeID qn channel).1.searchRequest = t.searchRequest ∧
    (searchShard t nodeID qn channel).1.collectionName = t.collectionName ∧
    (searchShard t nodeID qn channel).1.dbName = t.dbName ∧
    (searchShard t nodeID qn channel).1.needRequery = t.needRequery ∧
    (searchShard t nodeID qn channel).1.resultSizeInsufficient = t.resultSizeInsufficient ∧
    (∀ res, qn (buildShardRequest t nodeID channel) = .ok res →
      res.status.errorCode = ErrorCode.success →
      (searchShard t nodeID qn channel).1.resultBuf =
        t.resultBuf.map (fun buf => res :: buf)) ∧
    ((searchShard t nodeID qn channel).2.2 ≠ none →
      (searchShard t nodeID qn channel).1 = t) := by
  refine ⟨rfl, ?_⟩
  cases h : qn (buildShardRequest t nodeID channel) with
  | error e =>
    simp [searchShard, h]
  | ok res =>
    by_cases h1 : res.status.errorCode = ErrorCode.notShardLeader
    · simp [searchShard, h, h1]
    · by_cases h2 : res.status.errorCode = ErrorCode.success
      · simp [searchShard, h, h1, h2]
      · simp [searchShard, h, h1, h2]

/-- C9 witness: a successful shard call inserts the result into the buffer
(and, per the frame theorem applied here, leaves everything else alone). -/
theorem searchShard_frame_witness :
    (searchShard sampleTask 5 (fun _ => .ok okResult) "chan").1.resultBuf =
      sampleTask.resultBuf.map (fun buf => okResult :: buf) :=
  ((searchShard_frame sampleTask 5 (fun _ => .ok okResult) "chan").2.2.2.2.2.2.1)
    okResult rfl rfl

end Milvus
